import Mathlib

/-!
Verification of the command-proxy gateway server (`server.py`) of the
open-cli-mcp repository.  The Python source is shallowly embedded below:
pure string manipulation is translated to executable Lean functions, and
every subprocess interaction is made explicit by passing the outcome of the
external process (completion with exit code and captured streams, timeout,
missing binary, or any other launch fault) as an argument.  Python
exceptions that the source does not catch are modelled by an explicit
`PyResult.raised` value.
-/

namespace OpenCliMcp

/-! ### Python string primitives

The server relies on `str.split()` (whitespace split), `str.split(sep)`
(separator split), `str.strip()`, string containment (`in`) and f-string
concatenation.  They are embedded here over `List Char`.  The whitespace
set is the ASCII part of Python whitespace, which covers every string the
server manipulates. -/

def isPySpace (c : Char) : Bool :=
  c == ' ' || c == '\t' || c == '\n' || c == '\r' || c == '\x0b' || c == '\x0c'

/-- Accumulating worker for `pySplit`; `acc` holds the current word reversed. -/
def splitWsAux : List Char → List Char → List String
  | [], acc => if acc.isEmpty then [] else [String.mk acc.reverse]
  | c :: cs, acc =>
    if isPySpace c then
      if acc.isEmpty then splitWsAux cs [] else String.mk acc.reverse :: splitWsAux cs []
    else splitWsAux cs (c :: acc)

/-- Python `str.split()` with no separator: split on runs of whitespace,
dropping leading, trailing and repeated whitespace; `"".split()` is `[]`. -/
def pySplit (s : String) : List String :=
  splitWsAux s.toList []

/-- Python `str.strip()`: remove leading and trailing whitespace. -/
def pyStrip (s : String) : String :=
  String.mk (((s.toList.dropWhile isPySpace).reverse.dropWhile isPySpace).reverse)

/-- Worker for `pySplitOnChar`. -/
def splitOnCharAux (sep : Char) : List Char → List Char → List String
  | [], acc => [String.mk acc.reverse]
  | c :: cs, acc =>
    if c == sep then String.mk acc.reverse :: splitOnCharAux sep cs []
    else splitOnCharAux sep cs (c :: acc)

/-- Python `str.split(sep)` for a one-character separator: keeps empty
fields, and the split of `""` is `[""]`. -/
def pySplitOnChar (sep : Char) (s : String) : List String :=
  splitOnCharAux sep s.toList []

/-- Decides whether `pat` occurs at the start of `l`. -/
def startsWithChars : List Char → List Char → Bool
  | [], _ => true
  | _ :: _, [] => false
  | p :: ps, c :: cs => p == c && startsWithChars ps cs

/-- Decides whether `pat` occurs somewhere inside `l`. -/
def hasInfixChars (pat : List Char) : List Char → Bool
  | [] => pat.isEmpty
  | c :: cs => startsWithChars pat (c :: cs) || hasInfixChars pat cs

/-- Python substring containment `needle in hay`. -/
def strContains (hay needle : String) : Bool :=
  hasInfixChars needle.toList hay.toList

/-! ### JSON values and Python truthiness

`json.loads` is the standard-library collaborator; its possible return
values are embedded as the `Json` type (numbers as integers — no claim
involves fractional JSON numbers).  Python truthiness of a decoded value
drives the `output if not data else None` branch of `run_cli`. -/

inductive Json where
  | null
  | bool (b : Bool)
  | num (n : Int)
  | str (s : String)
  | arr (elems : List Json)
  | obj (fields : List (String × Json))

/-- Python truthiness of a decoded JSON value: `None`, `False`, `0`, `""`,
`[]` and the empty object are falsy, everything else truthy. -/
def Json.isTruthy : Json → Bool
  | .null => false
  | .bool b => b
  | .num n => n != 0
  | .str s => s != ""
  | .arr elems => !elems.isEmpty
  | .obj fields => !fields.isEmpty

/-- Python truthiness of the `data` variable of `run_cli` (`None` or a
decoded JSON value). -/
def dataTruthy : Option Json → Bool
  | none => false
  | some j => j.isTruthy

/-! ### Subprocess outcomes

One `subprocess.run` call either completes (with exit code and captured
stdout/stderr), raises `TimeoutExpired`, raises `FileNotFoundError`, or
raises some other launch-time exception (permission denied, resource
exhaustion, ...).  The embedding passes this outcome in as a value. -/

inductive ProcOutcome where
  | completed (returncode : Int) (stdout : String) (stderr : String)
  | timedOut
  | fileNotFound (msg : String)
  | otherError (msg : String)

/-- Python exceptions that may escape a function of the server. -/
inductive PyExc where
  | timeoutExpired
  | fileNotFound (msg : String)
  | other (msg : String)

/-- Result of running a piece of Python code: a value, or an uncaught
exception. -/
inductive PyResult (α : Type) where
  | ok (a : α)
  | raised (e : PyExc)

/-! ### The tool registry (`CLI_CONFIG`) -/

structure ToolConfig where
  name : String
  path : String
  version_cmd : List String
  json_flag : String
  source : String
  cask : String
deriving DecidableEq

/-- The `CLI_CONFIG` dictionary of `server.py`; a Python dict preserves
insertion order, so iteration order is the listed order. -/
def CLI_CONFIG : List ToolConfig :=
  [ { name := "jira-ticket-cli", path := "jira-ticket-cli",
      version_cmd := ["--version"], json_flag := "--output json",
      source := "cask", cask := "open-cli-collective/tap/jira-ticket-cli" },
    { name := "slck", path := "slck",
      version_cmd := ["--version"], json_flag := "--output json",
      source := "cask", cask := "open-cli-collective/tap/slack-chat-cli" },
    { name := "cfl", path := "cfl",
      version_cmd := ["--version"], json_flag := "--output json",
      source := "cask", cask := "open-cli-collective/tap/cfl" },
    { name := "newrelic-cli", path := "newrelic-cli",
      version_cmd := ["--version"], json_flag := "--output json",
      source := "cask", cask := "open-cli-collective/tap/newrelic-cli" },
    { name := "gro", path := "gro",
      version_cmd := ["--version"], json_flag := "--json",
      source := "cask", cask := "open-cli-collective/tap/google-readonly" } ]

/-- Dictionary access `CLI_CONFIG[name]["path"]` (total on registered names). -/
def configPath (n : String) : String :=
  ((CLI_CONFIG.find? (fun tc => tc.name == n)).map ToolConfig.path).getD ""

/-- Dictionary access `CLI_CONFIG[name]["cask"]` (total on registered names). -/
def caskOfName (n : String) : String :=
  ((CLI_CONFIG.find? (fun tc => tc.name == n)).map ToolConfig.cask).getD ""

/-! ### The result envelope builder (`run_cli`) -/

/-- The dictionary returned by `run_cli`.  Keys that a branch of the Python
code leaves out of its dictionary are `none` here. -/
structure RunResult where
  success : Bool
  exit_code : Option Int
  data : Option Json
  output : Option String
  stderr : Option String
  error : Option String

/-- Embedding of `run_cli(cmd, timeout)`.  `decoded` stands for the result
of the collaborator call `json.loads(output)` on the stripped stdout:
`some j` when decoding succeeds with value `j`, `none` when it raises
`JSONDecodeError`.  The command list does not influence the envelope, so it
is not a parameter. -/
def run_cli (timeout : Nat) (decoded : Option Json) (out : ProcOutcome) : RunResult :=
  match out with
  | .completed rc stdout stderr =>
    let output := pyStrip stdout
    let stderrS := pyStrip stderr
    let data := if output = "" then none else decoded
    { success := rc = 0
      exit_code := some rc
      data := data
      output := if dataTruthy data then none else some output
      stderr := if stderrS = "" then none else some stderrS
      error := none }
  | .timedOut =>
    { success := false, exit_code := none, data := none, output := none,
      stderr := none,
      error := some ("Command timed out after " ++ toString timeout ++ "s") }
  | .fileNotFound msg =>
    { success := false, exit_code := none, data := none, output := none,
      stderr := none, error := some ("CLI not found: " ++ msg) }
  | .otherError msg =>
    { success := false, exit_code := none, data := none, output := none,
      stderr := none, error := some msg }

/-! ### Generic pass-through operations

Each generic operation looks up its hard-coded config entry and builds
`cmd = [config["path"]] + args.split()`, then hands `cmd` to `run_cli`.
The command construction is the part the tokenization claims are about. -/

def jira_cli_cmd (args : String) : List String :=
  configPath "jira-ticket-cli" :: pySplit args

def slack_cli_cmd (args : String) : List String :=
  configPath "slck" :: pySplit args

def confluence_cli_cmd (args : String) : List String :=
  configPath "cfl" :: pySplit args

def newrelic_cli_cmd (args : String) : List String :=
  configPath "newrelic-cli" :: pySplit args

def google_cli_cmd (args : String) : List String :=
  configPath "gro" :: pySplit args

/-! ### The help operation (`cli_help`) -/

/-- Outcome of `cli_help`: either the serialized error dictionary for an
unregistered name, or the command list handed to `run_cli`. -/
inductive HelpOut where
  | errorPayload (msg : String)
  | ran (cmd : List String)
deriving DecidableEq

/-- The single-quote character, used by the Python `repr` of a string list. -/
def sq : String := String.singleton (Char.ofNat 39)

/-- Python `repr` of a list of strings, as produced by the f-string
`f"... Available: \x7blist(CLI_CONFIG.keys())\x7d"`. -/
def pyStrListRepr (xs : List String) : String :=
  "[" ++ String.intercalate ", " (xs.map (fun s => sq ++ s ++ sq)) ++ "]"

/-- Embedding of `cli_help(cli, subcommand)` up to the `run_cli` call: the
unknown-name branch returns the error payload; otherwise the command list
`[path] (+ subcommand.split()) + ["--help"]` is built.  `if subcommand:`
is Python truthiness, so `None` and `""` both skip the extension. -/
def cli_help_model (cli : String) (subcommand : Option String) : HelpOut :=
  match CLI_CONFIG.find? (fun tc => tc.name == cli) with
  | none =>
    .errorPayload ("Unknown CLI: " ++ cli ++ ". Available: "
      ++ pyStrListRepr (CLI_CONFIG.map ToolConfig.name))
  | some config =>
    .ran ((config.path ::
      (match subcommand with
        | some s => if s == "" then [] else pySplit s
        | none => [])) ++ ["--help"])

/-! ### The update reconciler (`check_for_updates`) -/

structure UpdateCandidate where
  cli : String
  cask : String
  current : String
  latest : String
  source : String
deriving DecidableEq

/-- Python `config["cask"].split("/")[-1]`. -/
def caskBase (cask : String) : String :=
  (pySplitOnChar '/' cask).getLastD ""

/-- Python `brew_result.stdout.strip().split("\n")`. -/
def outdatedLines (stdout : String) : List String :=
  pySplitOnChar '\n' (pyStrip stdout)

/-- The inner `for line in outdated_lines: ... break` loop of
`check_for_updates` for one registry entry: the first line containing the
cask base name contributes one candidate; `parts[1] if len(parts) > 1` and
`parts[-1] if len(parts) > 2` with else `"unknown"` give the versions. -/
def candidateFor (lines : List String) (name cask : String) : Option UpdateCandidate :=
  (lines.find? (fun l => strContains l cask)).map (fun line =>
    let parts := pySplit line
    { cli := name
      cask := cask
      current := parts.getD 1 "unknown"
      latest := if 2 < parts.length then parts.getLastD "unknown" else "unknown"
      source := "cask" })

/-- The `updates_available` list built by `check_for_updates`: empty when
the brew call fails to launch (the surrounding `try` logs and falls
through) or exits non-zero. -/
def checkTools (brew : ProcOutcome) : List UpdateCandidate :=
  match brew with
  | .completed rc stdout _ =>
    if rc = 0 then
      CLI_CONFIG.filterMap (fun (tc : ToolConfig) =>
        candidateFor (outdatedLines stdout) tc.name (caskBase tc.cask))
    else []
  | _ => []

/-- The dictionary serialized by `check_for_updates`. -/
structure CheckResult where
  updates_available : Bool
  tools : List UpdateCandidate
  message : String

/-- Embedding of `check_for_updates()`, parameterized by the outcome of
`brew outdated --cask --greedy`. -/
def check_for_updates_model (brew : ProcOutcome) : CheckResult :=
  let ts := checkTools brew
  { updates_available := !ts.isEmpty
    tools := ts
    message :=
      if ts.isEmpty then "All tools are up to date"
      else toString ts.length ++ " tool(s) have updates available" }

/-! ### The update operation (`update_tools`) -/

/-- What `update_tools` does after choosing `tools_to_update`: either the
early `"No tools to update"` return, or one batched
`brew upgrade --cask <casks>` call carrying exactly these casks. -/
inductive UpdateAction where
  | noTools
  | upgradeCall (casks : List String)
deriving DecidableEq

/-- Embedding of `update_tools(tools)` up to the single upgrade call.
`if tools:` is Python truthiness, so both `None` and the empty list fall
back to `check_for_updates()` (whose own JSON round-trip through
`json.dumps`/`json.loads` is the identity on the candidate list); a
non-empty list is filtered to registry-known names. -/
def update_tools_plan (tools : Option (List String)) (checkBrew : ProcOutcome) :
    UpdateAction :=
  let fromCheck := (check_for_updates_model checkBrew).tools.map UpdateCandidate.cli
  let tools_to_update :=
    match tools with
    | some ts =>
      if ts.isEmpty then fromCheck
      else ts.filter (fun t =>
        (CLI_CONFIG.find? (fun (tc : ToolConfig) => tc.name == t)).isSome)
    | none => fromCheck
  if tools_to_update.isEmpty then .noTools
  else .upgradeCall (tools_to_update.map caskOfName)

/-! ### The install operation (`install_missing_tools`)

The probe loop catches only `FileNotFoundError`; a probe that raises
`TimeoutExpired` or any other exception escapes the whole operation.  The
`brew tap` call is not guarded at all, so its launch faults escape too.
The final `brew install` call is wrapped in `except Exception`, so its
faults are always converted into a result entry. -/

/-- True for the probe outcomes whose exception the probe loop does not
catch (everything except completion and `FileNotFoundError`). -/
def ProcOutcome.isProbeFault : ProcOutcome → Bool
  | .timedOut => true
  | .otherError _ => true
  | _ => false

/-- True when the probe raised `FileNotFoundError`. -/
def ProcOutcome.isFNF : ProcOutcome → Bool
  | .fileNotFound _ => true
  | _ => false

/-- True when the call raised any exception rather than completing. -/
def ProcOutcome.isLaunchFault : ProcOutcome → Bool
  | .completed _ _ _ => false
  | _ => true

/-- The exception of a fault outcome. -/
def ProcOutcome.faultExc : ProcOutcome → PyExc
  | .timedOut => .timeoutExpired
  | .fileNotFound m => .fileNotFound m
  | .otherError m => .other m
  | .completed _ _ _ => .other ""

/-- The `for name, config in CLI_CONFIG.items()` probe loop of
`install_missing_tools`: completion means installed, `FileNotFoundError`
appends to `missing`, and any other exception propagates immediately. -/
def probeLoop (l : List ToolConfig) (probes : String → ProcOutcome) :
    PyResult (List String) :=
  match l with
  | [] => .ok []
  | tc :: rest =>
    match probes tc.name with
    | .completed _ _ _ => probeLoop rest probes
    | .fileNotFound _ =>
      match probeLoop rest probes with
      | .ok ms => .ok (tc.name :: ms)
      | .raised e => .raised e
    | .timedOut => .raised .timeoutExpired
    | .otherError m => .raised (.other m)

/-- Detail field of the batched-install result entry: the success branch
stores `stdout[:500]` under `output`, the failure branches store text under
`error`. -/
inductive BatchDetail where
  | out (s : String)
  | err (s : String)
deriving DecidableEq

/-- The dictionary serialized by `install_missing_tools` when it returns. -/
inductive InstallOut where
  | allInstalled
  | batch (missing : List String) (success : Bool) (detail : BatchDetail)
deriving DecidableEq

/-- Placeholder for Python `str(e)` on a caught exception. -/
def excStr : PyExc → String
  | .timeoutExpired => "Command timed out"
  | .fileNotFound m => m
  | .other m => m

/-- The part of `install_missing_tools` after the probe loop: early return
when nothing is missing; otherwise the unguarded `brew tap` call (whose
launch faults propagate, while its exit code is ignored), then the guarded
`brew install --cask` batch. -/
def installAfterProbe (missing : List String) (tap inst : ProcOutcome) :
    PyResult InstallOut :=
  if missing.isEmpty then .ok .allInstalled
  else
    match tap with
    | .completed _ _ _ =>
      match inst with
      | .completed rc stdout stderr =>
        .ok (.batch missing (rc = 0)
          (if rc = 0 then .out (stdout.take 500) else .out (stderr.take 500)))
      | fault => .ok (.batch missing false (.err (excStr fault.faultExc)))
    | .timedOut => .raised .timeoutExpired
    | .fileNotFound m => .raised (.fileNotFound m)
    | .otherError m => .raised (.other m)

/-- Embedding of `install_missing_tools()`, parameterized by the probe
outcome of each registered tool, the `brew tap` outcome and the
`brew install` outcome. -/
def install_missing_tools_model (probes : String → ProcOutcome)
    (tap inst : ProcOutcome) : PyResult InstallOut :=
  match probeLoop CLI_CONFIG probes with
  | .ok missing => installAfterProbe missing tap inst
  | .raised e => .raised e

/-- The exception raised by the first probe in registry order whose
outcome the probe loop does not catch (meaningful only when such a probe
exists). -/
def firstProbeFault (l : List ToolConfig) (probes : String → ProcOutcome) : PyExc :=
  match l with
  | [] => .other ""
  | tc :: rest =>
    match probes tc.name with
    | .timedOut => .timeoutExpired
    | .otherError m => .other m
    | _ => firstProbeFault rest probes

/-! ## Helper lemmas -/

theorem str_data_append (a b : String) : (a ++ b).data = a.data ++ b.data := by
  cases a
  cases b
  rfl

theorem strContains_eq (hay needle : String) :
    strContains hay needle = hasInfixChars needle.data hay.data := rfl

theorem startsWithChars_append_self (n t : List Char) :
    startsWithChars n (n ++ t) = true := by
  induction n with
  | nil => rfl
  | cons c cs ih => simp [startsWithChars, ih]

theorem hasInfixChars_of_starts {n l : List Char} (h : startsWithChars n l = true) :
    hasInfixChars n l = true := by
  cases l with
  | nil =>
    cases n with
    | nil => rfl
    | cons c cs => simp [startsWithChars] at h
  | cons c cs => simp [hasInfixChars, h]

theorem hasInfixChars_append_left (s : List Char) {n t : List Char}
    (h : hasInfixChars n t = true) : hasInfixChars n (s ++ t) = true := by
  induction s with
  | nil => simpa using h
  | cons c cs ih => simp [hasInfixChars, ih]

/-! ## Claim C1 -/

/-- Claim C1 (code bug): the spec and the repository tests require quoted
spans to survive tokenization as one token with the quotes stripped, but
the generic pass-through operations tokenize with plain `args.split()`.
On the test input of `test_quoted_flag_values`, the quoted span
`"Fix login bug"` is split into three tokens with the quote characters
kept, refuting the claimed behavior on the code as written. -/
theorem c1_generic_split_keeps_quotes :
    jira_cli_cmd "issues create --project PROJ --summary \"Fix login bug\"" =
      ["jira-ticket-cli", "issues", "create", "--project", "PROJ",
       "--summary", "\"Fix", "login", "bug\""] := rfl

/-! ## Claim C3 -/

/-- Claim C3 (code bug): the spec requires an unmatched quote to be a
tokenization error reported to the caller, but `args.split()` never
reports any error: on an argument string with an unmatched double quote
the generic operation silently builds a command carrying the quote
character inside a token. -/
theorem c3_unmatched_quote_silently_split :
    slack_cli_cmd "search messages \"unterminated query" =
      ["slck", "search", "messages", "\"unterminated", "query"] := rfl

/-! ## Claim C2 -/

/-- Claim C2 counterexample: when stdout is the empty JSON array `[]`
(which `json.loads` decodes successfully to the falsy value `[]`), the
envelope built by `run_cli` carries BOTH `data` and `output`, because the
source guards `output` with Python truthiness (`if not data`) instead of a
None check.  This refutes the claimed mutual exclusivity. -/
theorem c2_falsy_json_sets_both_fields :
    (run_cli 60 (some (Json.arr [])) (ProcOutcome.completed 0 "[]" "")).data
        = some (Json.arr [])
    ∧ (run_cli 60 (some (Json.arr [])) (ProcOutcome.completed 0 "[]" "")).output
        = some "[]" :=
  ⟨rfl, rfl⟩

/-- Claim C2 (amended): in the envelope built by `run_cli` for a completed
process, `rawOutput` is omitted exactly when the decoded `structuredData`
is present AND truthy in the Python sense; a successful decode to a falsy
value (such as the empty JSON array) keeps `rawOutput` alongside
`structuredData`, so mutual exclusivity holds only for truthy decodes. -/
theorem c2_output_omitted_iff_truthy_data (timeout : Nat) (rc : Int)
    (stdout stderr : String) (decoded : Option Json) :
    (run_cli timeout decoded (ProcOutcome.completed rc stdout stderr)).output = none ↔
      ∃ j, (run_cli timeout decoded (ProcOutcome.completed rc stdout stderr)).data = some j
        ∧ j.isTruthy = true := by
  simp only [run_cli]
  cases hd : (if pyStrip stdout = "" then none else decoded) with
  | none => simp [dataTruthy]
  | some j =>
    cases hj : j.isTruthy <;>
      simp_all [dataTruthy]

/-! ## Claim C7 -/

/-- Claim C7 (confirmed): on a subprocess timeout, `run_cli` returns the
envelope whose only content is `success = false` and a `launchError`
naming the timeout bound in seconds; no structured data, no raw output,
no stderr and no exit code are present, for every timeout bound and every
decode oracle. -/
theorem c7_timeout_result (timeout : Nat) (decoded : Option Json) :
    run_cli timeout decoded ProcOutcome.timedOut =
      { success := false, exit_code := none, data := none, output := none,
        stderr := none,
        error := some ("Command timed out after " ++ toString timeout ++ "s") } := rfl

/-! ## Claim C4 -/

/-- Claim C4 counterexample: on a matched outdated line with exactly two
whitespace-separated fields, `check_for_updates` reports the second field
as the current version — not the string `unknown` for both versions that
the claim requires for every line of fewer than three fields. -/
theorem c4_two_field_line_current_not_unknown :
    (check_for_updates_model (ProcOutcome.completed 0 "jira-ticket-cli 9.9" "")).tools.map
        (fun c => (c.cli, c.current, c.latest))
      = [("jira-ticket-cli", "9.9", "unknown")] := rfl

/-- Claim C4 (amended): for the first outdated line containing a tool's
cask name, the produced candidate reports the second whitespace field of
that line as `current` when the line has at least two fields (else
`unknown`), and the last field as `latest` when the line has at least
three fields (else `unknown`); no error is raised for short lines. -/
theorem c4_version_fields_of_first_match (lines : List String)
    (name cask line : String)
    (h : lines.find? (fun l => strContains l cask) = some line) :
    candidateFor lines name cask =
      some { cli := name, cask := cask,
             current := (pySplit line).getD 1 "unknown",
             latest :=
               if 2 < (pySplit line).length then (pySplit line).getLastD "unknown"
               else "unknown",
             source := "cask" } := by
  unfold candidateFor
  rw [h]
  rfl

/-- Witness for `c4_version_fields_of_first_match` at a concrete listing. -/
theorem c4_version_fields_witness :
    (["foo-cli 1.2 1.4"].find? (fun l => strContains l "foo-cli")
        = some "foo-cli 1.2 1.4")
    ∧ candidateFor ["foo-cli 1.2 1.4"] "foo" "foo-cli" =
        some { cli := "foo", cask := "foo-cli",
               current := (pySplit "foo-cli 1.2 1.4").getD 1 "unknown",
               latest :=
                 if 2 < (pySplit "foo-cli 1.2 1.4").length then
                   (pySplit "foo-cli 1.2 1.4").getLastD "unknown"
                 else "unknown",
               source := "cask" } :=
  ⟨by decide, c4_version_fields_of_first_match _ _ _ _ (by decide)⟩

/-! ## Claim C9 -/

/-- Claim C9 counterexample: called with the explicit (empty) list of
names, `update_tools` does not retain the empty set and stop — Python
truthiness (`if tools:`) sends the empty list down the same path as a
missing argument, so it recomputes the update check and issues an upgrade
call for a cask that is not among the (zero) retained names. -/
theorem c9_empty_list_triggers_check_upgrade :
    update_tools_plan (some [])
        (ProcOutcome.completed 0 "jira-ticket-cli 1.0 2.0" "") =
      UpdateAction.upgradeCall ["open-cli-collective/tap/jira-ticket-cli"] := rfl

/-- Claim C9 (amended): when `update_tools` is called with a NON-EMPTY
explicit list of names, it filters that list to registry-known names,
silently dropping unknown ones, ignores the update check entirely, and
either reports nothing to update (all names unknown) or upgrades exactly
the casks of the retained names in one batched call; an explicit empty
list instead behaves like an omitted argument. -/
theorem c9_nonempty_list_filters_registry (ts : List String)
    (checkBrew : ProcOutcome) (h : ts ≠ []) :
    update_tools_plan (some ts) checkBrew =
      (if (ts.filter (fun t =>
            (CLI_CONFIG.find? (fun (tc : ToolConfig) => tc.name == t)).isSome)).isEmpty
       then UpdateAction.noTools
       else UpdateAction.upgradeCall
        ((ts.filter (fun t =>
            (CLI_CONFIG.find? (fun (tc : ToolConfig) => tc.name == t)).isSome)).map
          caskOfName)) := by
  have hts : ts.isEmpty = false := by
    cases ts with
    | nil => exact absurd rfl h
    | cons a l => rfl
  simp [update_tools_plan, hts]

/-- Witness for `c9_nonempty_list_filters_registry`: one known and one
unknown name, with a brew outcome that would otherwise report updates. -/
theorem c9_nonempty_list_filters_witness :
    (["gro", "nope"] : List String) ≠ []
    ∧ update_tools_plan (some ["gro", "nope"]) ProcOutcome.timedOut =
        (if ((["gro", "nope"] : List String).filter (fun t =>
              (CLI_CONFIG.find? (fun (tc : ToolConfig) => tc.name == t)).isSome)).isEmpty
         then UpdateAction.noTools
         else UpdateAction.upgradeCall
          (((["gro", "nope"] : List String).filter (fun t =>
              (CLI_CONFIG.find? (fun (tc : ToolConfig) => tc.name == t)).isSome)).map
            caskOfName)) :=
  ⟨by decide, c9_nonempty_list_filters_registry ["gro", "nope"] ProcOutcome.timedOut
    (by decide)⟩

/-! ## Claim C8 -/

/-- Claim C8 (confirmed): for every tool name absent from the registry and
any subcommand, `cli_help` returns (never raises) an error payload whose
text contains the unknown name and every registered tool name. -/
theorem c8_unknown_cli_payload (cli : String) (sub : Option String)
    (h : cli ∉ CLI_CONFIG.map ToolConfig.name) :
    ∃ msg, cli_help_model cli sub = HelpOut.errorPayload msg
      ∧ strContains msg cli = true
      ∧ ∀ n ∈ CLI_CONFIG.map ToolConfig.name, strContains msg n = true := by
  have hf : CLI_CONFIG.find? (fun tc => tc.name == cli) = none := by
    rw [List.find?_eq_none]
    intro tc htc
    simp only [beq_iff_eq]
    intro he
    exact h (he ▸ List.mem_map_of_mem ToolConfig.name htc)
  have hmsg : ∀ n : String,
      hasInfixChars n.data
          (pyStrListRepr (CLI_CONFIG.map ToolConfig.name)).data = true →
      strContains ("Unknown CLI: " ++ cli ++ ". Available: "
        ++ pyStrListRepr (CLI_CONFIG.map ToolConfig.name)) n = true := by
    intro n hn
    rw [strContains_eq, str_data_append, str_data_append, str_data_append,
      List.append_assoc, List.append_assoc]
    exact hasInfixChars_append_left _ (hasInfixChars_append_left _
      (hasInfixChars_append_left _ hn))
  refine ⟨"Unknown CLI: " ++ cli ++ ". Available: "
      ++ pyStrListRepr (CLI_CONFIG.map ToolConfig.name), ?_, ?_, ?_⟩
  · simp [cli_help_model, hf]
  · rw [strContains_eq, str_data_append, str_data_append, str_data_append,
      List.append_assoc, List.append_assoc]
    exact hasInfixChars_append_left _
      (hasInfixChars_of_starts (startsWithChars_append_self _ _))
  · intro n hn
    have h5 : n = "jira-ticket-cli" ∨ n = "slck" ∨ n = "cfl"
        ∨ n = "newrelic-cli" ∨ n = "gro" := by
      simpa [CLI_CONFIG] using hn
    rcases h5 with rfl | rfl | rfl | rfl | rfl <;> exact hmsg _ (by decide)

/-- Witness for `c8_unknown_cli_payload` at the concrete name `fake-cli`. -/
theorem c8_unknown_cli_witness :
    ("fake-cli" ∉ CLI_CONFIG.map ToolConfig.name)
    ∧ ∃ msg, cli_help_model "fake-cli" none = HelpOut.errorPayload msg
      ∧ strContains msg "fake-cli" = true
      ∧ ∀ n ∈ CLI_CONFIG.map ToolConfig.name, strContains msg n = true :=
  ⟨by decide, c8_unknown_cli_payload "fake-cli" none (by decide)⟩

/-! ## Claims C5 and C6: the probe loop of `install_missing_tools` -/

theorem probeLoop_char (l : List ToolConfig) (probes : String → ProcOutcome) :
    probeLoop l probes =
      if l.all (fun tc => !(probes tc.name).isProbeFault) then
        PyResult.ok ((l.filter (fun tc => (probes tc.name).isFNF)).map ToolConfig.name)
      else PyResult.raised (firstProbeFault l probes) := by
  induction l with
  | nil => rfl
  | cons tc rest ih =>
    cases hp : probes tc.name with
    | completed rc out err =>
      simp [probeLoop, firstProbeFault, hp, List.all_cons, List.filter_cons,
        ProcOutcome.isProbeFault, ProcOutcome.isFNF, ih]
    | fileNotFound m =>
      have hallc : ((tc :: rest).all fun x => !(probes x.name).isProbeFault)
          = rest.all fun x => !(probes x.name).isProbeFault := by
        simp [List.all_cons, hp, ProcOutcome.isProbeFault]
      rw [hallc]
      simp only [probeLoop, hp, ih]
      cases hall : rest.all (fun x => !(probes x.name).isProbeFault) with
      | true => simp [List.filter_cons, hp, ProcOutcome.isFNF]
      | false => simp [firstProbeFault, hp]
    | timedOut =>
      simp [probeLoop, firstProbeFault, hp, List.all_cons, ProcOutcome.isProbeFault]
    | otherError m =>
      simp [probeLoop, firstProbeFault, hp, List.all_cons, ProcOutcome.isProbeFault]

theorem installAfterProbe_raised_iff (missing : List String)
    (tap inst : ProcOutcome) :
    (∃ e, installAfterProbe missing tap inst = PyResult.raised e) ↔
      (missing.isEmpty = false ∧ tap.isLaunchFault = true) := by
  unfold installAfterProbe
  cases hm : missing.isEmpty with
  | true => simp
  | false =>
    cases tap with
    | completed rc out err =>
      cases inst <;> simp [ProcOutcome.isLaunchFault]
    | timedOut => simp [ProcOutcome.isLaunchFault]
    | fileNotFound m => simp [ProcOutcome.isLaunchFault]
    | otherError m => simp [ProcOutcome.isLaunchFault]

/-! ## Claim C5 -/

/-- Claim C5 counterexample: a probe that fails with a timeout (one of the
launch failures the claim says is treated as missing) is NOT caught — the
whole operation escapes with the `TimeoutExpired` exception instead of
classifying the tool as missing. -/
theorem c5_probe_timeout_escapes :
    install_missing_tools_model
        (fun n => if n == "gro" then ProcOutcome.timedOut
                  else ProcOutcome.completed 0 "1.0.0" "")
        (ProcOutcome.completed 0 "" "") (ProcOutcome.completed 0 "" "")
      = PyResult.raised PyExc.timeoutExpired := rfl

/-- Claim C5 (amended): `install_missing_tools` classifies as missing
exactly the registered tools whose probe raises `FileNotFoundError`
(binary not found), provided every probe either completes or raises
`FileNotFoundError`; as soon as some probe fails in any other way
(permission denied, probe timeout), that first fault escapes the
operation as an unhandled exception. -/
theorem c5_missing_only_file_not_found (probes : String → ProcOutcome)
    (tap inst : ProcOutcome) :
    install_missing_tools_model probes tap inst =
      if CLI_CONFIG.all (fun tc => !(probes tc.name).isProbeFault) then
        installAfterProbe
          ((CLI_CONFIG.filter (fun tc => (probes tc.name).isFNF)).map ToolConfig.name)
          tap inst
      else PyResult.raised (firstProbeFault CLI_CONFIG probes) := by
  unfold install_missing_tools_model
  rw [probeLoop_char]
  cases hall : CLI_CONFIG.all (fun tc => !(probes tc.name).isProbeFault) <;>
    simp [hall]

/-! ## Claim C6 -/

/-- Claim C6 counterexample: an exposed operation CAN propagate an
unhandled fault — when every probe of `install_missing_tools` raises a
permission error, the operation re-raises it instead of encoding it into
the returned payload. -/
theorem c6_install_missing_raises :
    install_missing_tools_model (fun _ => ProcOutcome.otherError "permission denied")
        (ProcOutcome.completed 0 "" "") (ProcOutcome.completed 0 "" "")
      = PyResult.raised (PyExc.other "permission denied") := rfl

/-- Claim C6 (amended): `install_missing_tools` propagates an unhandled
fault exactly when some probe fails other than with binary-not-found, or
when every probe either completes or reports binary-not-found, some tool
is missing, and the unguarded tap-registration call itself fails to
launch; in every other case (including every failure of the final batched
install call, which is guarded) a payload is returned. -/
theorem c6_raise_characterization (probes : String → ProcOutcome)
    (tap inst : ProcOutcome) :
    (∃ e, install_missing_tools_model probes tap inst = PyResult.raised e) ↔
      ((∃ tc ∈ CLI_CONFIG, (probes tc.name).isProbeFault = true) ∨
       ((∀ tc ∈ CLI_CONFIG, (probes tc.name).isProbeFault = false) ∧
        (∃ tc ∈ CLI_CONFIG, (probes tc.name).isFNF = true) ∧
        tap.isLaunchFault = true)) := by
  unfold install_missing_tools_model
  rw [probeLoop_char]
  cases hall : CLI_CONFIG.all (fun tc => !(probes tc.name).isProbeFault) with
  | false =>
    have hex : ∃ tc ∈ CLI_CONFIG, (probes tc.name).isProbeFault = true := by
      by_contra hno
      push_neg at hno
      have hcon : CLI_CONFIG.all (fun tc => !(probes tc.name).isProbeFault) = true := by
        rw [List.all_eq_true]
        intro tc htc
        have hb := hno tc htc
        simp [Bool.not_eq_true] at hb
        simp [hb]
      rw [hcon] at hall
      cases hall
    rw [if_neg Bool.false_ne_true]
    constructor
    · intro _
      exact Or.inl hex
    · intro _
      exact ⟨firstProbeFault CLI_CONFIG probes, rfl⟩
  | true =>
    have hforall : ∀ tc ∈ CLI_CONFIG, (probes tc.name).isProbeFault = false := by
      intro tc htc
      have := List.all_eq_true.mp hall tc htc
      simpa using this
    rw [if_pos rfl]
    show (∃ e, installAfterProbe
        ((CLI_CONFIG.filter (fun tc => (probes tc.name).isFNF)).map ToolConfig.name)
        tap inst = PyResult.raised e) ↔ _
    rw [installAfterProbe_raised_iff]
    constructor
    · rintro ⟨hne, htap⟩
      refine Or.inr ⟨hforall, ?_, htap⟩
      by_contra hno
      push_neg at hno
      have : (CLI_CONFIG.filter (fun tc => (probes tc.name).isFNF)) = [] := by
        rw [List.filter_eq_nil_iff]
        intro tc htc
        simp [hno tc htc]
      simp [this] at hne
    · rintro (⟨tc, htc, hfault⟩ | ⟨_, ⟨tc, htc, hfnf⟩, htap⟩)
      · exact absurd (hforall tc htc) (by simp [hfault])
      · refine ⟨?_, htap⟩
        have hmem : tc ∈ CLI_CONFIG.filter (fun tc => (probes tc.name).isFNF) :=
          List.mem_filter.mpr ⟨htc, hfnf⟩
        cases hfe : (CLI_CONFIG.filter (fun tc => (probes tc.name).isFNF)) with
        | nil => rw [hfe] at hmem; cases hmem
        | cons a l => simp [hfe]

/-! ## Claim C10 -/

theorem candidateFor_cli {lines : List String} {name cask : String}
    {c : UpdateCandidate} (h : candidateFor lines name cask = some c) :
    c.cli = name := by
  unfold candidateFor at h
  cases hf : lines.find? (fun l => strContains l cask) with
  | none => rw [hf] at h; cases h
  | some line =>
    rw [hf] at h
    cases h
    rfl

theorem countP_filterMap_le_one {l : List ToolConfig}
    {f : ToolConfig → Option UpdateCandidate}
    (hf : ∀ tc c, f tc = some c → c.cli = tc.name)
    (hnd : (l.map ToolConfig.name).Nodup) (name : String) :
    (l.filterMap f).countP (fun c => c.cli == name) ≤ 1 := by
  induction l with
  | nil => simp
  | cons tc rest ih =>
    rw [List.map_cons, List.nodup_cons] at hnd
    obtain ⟨hni, hnd'⟩ := hnd
    rw [List.filterMap_cons]
    cases hfc : f tc with
    | none => exact ih hnd'
    | some c =>
      rw [List.countP_cons]
      by_cases hc : (c.cli == name) = true
      · have hzero : (rest.filterMap f).countP (fun c => c.cli == name) = 0 := by
          rw [List.countP_eq_zero]
          intro x hx
          obtain ⟨tc2, htc2, hfx⟩ := List.mem_filterMap.mp hx
          simp only [beq_iff_eq]
          intro hxn
          apply hni
          have hnn : tc.name = tc2.name := by
            rw [← hf tc c hfc, beq_iff_eq.mp hc, ← hxn, hf tc2 x hfx]
          rw [hnn]
          exact List.mem_map_of_mem ToolConfig.name htc2
        rw [hzero, hc, if_pos rfl]
      · rw [if_neg hc]
        simpa using ih hnd'

/-- Claim C10 (confirmed): for every outcome of the package-source call
and every tool name, the update plan built by `check_for_updates` contains
at most one candidate for that tool — the per-tool loop stops at the first
line containing the package identifier, so multiple matching lines still
contribute at most one candidate. -/
theorem c10_at_most_one_candidate_per_tool (brew : ProcOutcome) (name : String) :
    ((check_for_updates_model brew).tools.countP (fun c => c.cli == name)) ≤ 1 := by
  show ((checkTools brew).countP (fun c => c.cli == name)) ≤ 1
  cases brew with
  | completed rc stdout stderr =>
    rw [show checkTools (ProcOutcome.completed rc stdout stderr)
        = (if rc = 0 then
            CLI_CONFIG.filterMap (fun (tc : ToolConfig) =>
              candidateFor (outdatedLines stdout) tc.name (caskBase tc.cask))
          else []) from rfl]
    by_cases hrc : rc = 0
    · rw [if_pos hrc]
      exact countP_filterMap_le_one
        (fun tc c h => candidateFor_cli h) (by decide) name
    · rw [if_neg hrc]
      simp
  | timedOut => simp [checkTools]
  | fileNotFound m => simp [checkTools]
  | otherError m => simp [checkTools]

end OpenCliMcp
